import Mathlib

/-!
Verification of the vocabulary-jumble game server (`src/vocab/flask_vocab.py`)
against its design specification.

The repository snapshot contains only the route-handler module
`src/vocab/flask_vocab.py`.  The helper modules it imports
(`src.letterbag.LetterBag`, `src.vocab.Vocab`, `src.jumble.jumbled`,
`src.config`) are not present in the snapshot, so they are modelled from the
specification (see the doc comments marked "Modelled from the spec").  The
route handlers `index`, `check` and `check_word` themselves are embedded
directly from the Python source: the Flask session becomes an explicit
`SessionState` value, query/form parameters become `Option String`
(`none` = parameter absent), and a Python exception escaping a handler (or
being caught by the blanket `except` in `check`) becomes an `Except`/error
value.
-/

/-- Lowercase a string character by character (Python `str.lower`, restricted
to the ASCII case mapping of `Char.toLower`, which covers the game's
letters). -/
def strLower (s : String) : String :=
  String.mk (s.data.map Char.toLower)

/-- Modelled from the spec: `src/vocab.py` (class `Vocab`) is not in the
snapshot.  Per section 4.1 of the spec, `load` normalizes words to lowercase,
so the stored word list consists of lowercase words in load order. -/
structure Vocab where
  words : List String
deriving DecidableEq

/-- Modelled from the spec: `Vocab.has` is a "case-insensitive exact
membership test; must normalize the query the same way as load-time
normalization" (spec 4.1), i.e. it lowercases the query before the exact
membership test against the (lowercase) stored words. -/
def Vocab.has (v : Vocab) (w : String) : Bool :=
  v.words.contains (strLower w)

/-- Modelled from the spec: `as_list` returns the stable load ordering of all
words (spec 4.1). -/
def Vocab.as_list (v : Vocab) : List String :=
  v.words

/-- Modelled from the spec: `src/letterbag.py` (class `LetterBag`) is not in
the snapshot.  A `LetterBag` is "a count-per-character structure built from a
string" (spec 3); we keep the case-normalized character list of the source
string and count occurrences in it. -/
structure LetterBag where
  letters : List Char
deriving DecidableEq

/-- Modelled from the spec: `from_string` builds counts from all characters of
the source string, case-normalized (spec 4.2). -/
def LetterBag.ofString (s : String) : LetterBag :=
  ⟨(strLower s).data⟩

/-- Modelled from the spec: `contains(candidate)` is true iff the candidate
can be spelled from the bag's letters without exceeding any letter's count
(spec 4.2); "case sensitivity must be normalized (lowercase) before
comparison" (spec 3), so the candidate is lowercased first.  The empty
candidate is trivially contained. -/
def LetterBag.contains (b : LetterBag) (candidate : String) : Bool :=
  (strLower candidate).data.all
    (fun c => (strLower candidate).data.count c ≤ b.letters.count c)

/-- Errors that abort an operation.  `configurationError` is the spec's
ConfigurationError; `assertionError` models a failing Python `assert`. -/
inductive GameError
  | configurationError
  | assertionError
deriving DecidableEq

/-- A rotation of the letter pool keyed by `k`: the permutation the generator
applies to the pooled letters, selected by the random value `k`. -/
def scramble (k : Nat) (l : List Char) : List Char :=
  l.drop (k % (l.length + 1)) ++ l.take (k % (l.length + 1))

/-- Modelled from the spec: `src/jumble.py` (`jumbled`) is not in the
snapshot.  Per spec 4.3 the generator fails with a ConfigurationError when the
vocabulary is empty; otherwise it pools the letters of enough vocabulary words
to admit `target_count` solvable words and applies a permutation of the pooled
letters.  Per spec 4.3 the result is fully reproducible from `seed` when a
seed is supplied; when `seed` is `none` the permutation is drawn from process
entropy, modelled by the extra `entropy` argument (which a supplied seed
ignores). -/
def jumbled (vocab : List String) (target_count : Nat) (seed : Option Int)
    (entropy : Nat) : Except GameError String :=
  if vocab.isEmpty then
    .error .configurationError
  else
    let pool := (vocab.take (max target_count 1)).foldl
      (fun acc w => acc ++ (strLower w).data) []
    let k : Nat :=
      match seed with
      | some s => s.toNat
      | none => entropy
    .ok (String.mk (scramble k pool))

/-- The per-session state: the three session variables set by `index` and read
by the check handlers (`flask.session["jumble"]`, `["target_count"]`,
`["matches"]`). -/
structure SessionState where
  jumble : String
  target_count : Nat
  matchesList : List String
deriving DecidableEq

/-- The configuration values `flask_vocab.py` reads: `CONFIG.SUCCESS_AT_COUNT`
and the already-parsed `SEED` (`int(CONFIG.SEED)` with `ValueError` mapped to
`None`, as in the module body lines 36-39). -/
structure Config where
  SUCCESS_AT_COUNT : Nat
  SEED : Option Int
deriving DecidableEq

/-- The seed expression of `index` (line 54 of the source):
`None if not SEED or SEED < 0 else SEED`.  Python truthiness makes
`not SEED` true both for `None` and for `0`, so the result is `none` unless
the parsed seed is a strictly positive integer. -/
def effectiveSeed (s : Option Int) : Option Int :=
  match s with
  | none => none
  | some v => if v ≤ 0 then none else some v

/-- The session-start handler `index` (source lines 46-60): it sets
`target_count = min(len(vocab), CONFIG.SUCCESS_AT_COUNT)`, stores the jumble
produced by `jumbled(vocab, target_count, seed=...)`, sets `matches = []`,
and then asserts `matches == []` (trivially true) and `target_count > 0`.
An error raised by `jumbled` propagates (there is no `try` in `index`), and a
failing assert raises after the session fields are computed. -/
def index (v : Vocab) (cfg : Config) (entropy : Nat) :
    Except GameError SessionState :=
  let vocabList := v.as_list
  let tc := min vocabList.length cfg.SUCCESS_AT_COUNT
  match jumbled vocabList tc (effectiveSeed cfg.SEED) entropy with
  | .error e => .error e
  | .ok j =>
    if tc > 0 then
      .ok ⟨j, tc, []⟩
    else
      .error .assertionError

/-- The outcomes of the word-check classification (spec 4.4 and 6), plus
`UNREACHABLE` for the final `else: assert False` branch of `check`. -/
inductive Outcome
  | ACCEPTED
  | DUPLICATE
  | NOT_A_WORD
  | NOT_FROM_JUMBLE
  | UNREACHABLE
deriving DecidableEq

/-- The `if`/`elif` chain of `check` (source lines 106-118), as a function of
the three predicates `matched = WORDS.has(text)`,
`in_jumble = LetterBag(jumble).contains(text)`, and
`already = text in matches`:
accept when `matched and in_jumble and not (text in matches)`, else duplicate
when `text in matches`, else not-a-word when `not matched`, else
not-from-jumble when `not in_jumble`, else the `assert False` branch. -/
def classify (matched in_jumble already : Bool) : Outcome :=
  if matched && in_jumble && !already then .ACCEPTED
  else if already then .DUPLICATE
  else if !matched then .NOT_A_WORD
  else if !in_jumble then .NOT_FROM_JUMBLE
  else .UNREACHABLE

/-- The classification `check` computes for a candidate `text` against session
state `st` and vocabulary `v`. -/
def checkOutcome (v : Vocab) (st : SessionState) (text : String) : Outcome :=
  classify (v.has text) ((LetterBag.ofString st.jumble).contains text)
    (st.matchesList.contains text)

/-- The message strings `check` formats in its non-accepting branches (source
lines 111-115). -/
def checkMessage (text jumble : String) : Outcome → Option String
  | .DUPLICATE => some ("You already found " ++ text)
  | .NOT_A_WORD => some (text ++ " isn\x27t in the list of words")
  | .NOT_FROM_JUMBLE =>
      some ("\"" ++ text ++ "\" can\x27t be made from the letters " ++ jumble)
  | _ => none

/-- Which page the handler redirects to. -/
inductive Redirect
  | success
  | keep_going
deriving DecidableEq

/-- The `result` dictionary `check` builds: `matches` is set only in the
accepting branch, `message` only in the non-accepting branches, `redirect`
always. -/
structure CheckResult where
  matchesField : Option (List String)
  messageField : Option String
  redirect : Redirect
deriving DecidableEq

/-- The body of the `try` block of `check` (source lines 96-127).  An
`.error s` value models a Python exception with `str(e) = s` raised inside the
`try`:
* a missing `text` query parameter is `None`, and
  `LetterBag(jumble).contains(None)` faults (`contains` consumes a string);
* the final `else` branch executes `assert False`;
* after the branch, `check` computes the redirect from the (possibly grown)
  match list, and then unconditionally logs `result["matches"]` — a `KeyError`
  (whose `str` is `\x27matches\x27`) in every branch that did not set it. -/
def checkBody (v : Vocab) (st : SessionState) (textOpt : Option String) :
    Except String (CheckResult × SessionState) :=
  match textOpt with
  | none => .error "TypeError"
  | some text =>
    let in_jumble := (LetterBag.ofString st.jumble).contains text
    let matched := v.has text
    let outcome := classify matched in_jumble (st.matchesList.contains text)
    if outcome = .UNREACHABLE then
      .error "AssertionError"
    else
      let newMatches :=
        if outcome = .ACCEPTED then st.matchesList ++ [text] else st.matchesList
      let result : CheckResult :=
        { matchesField := if outcome = .ACCEPTED then some newMatches else none
          messageField := checkMessage text st.jumble outcome
          redirect :=
            if st.target_count ≤ newMatches.length then .success
            else .keep_going }
      match result.matchesField with
      | some _ => .ok (result, { st with matchesList := newMatches })
      | none => .error "\x27matches\x27"

/-- What `check` returns to its caller: either `jsonify(result=result)` or,
from the blanket `except Exception`, `jsonify(error=str(e))`. -/
inductive CheckResponse
  | result (r : CheckResult)
  | error (e : String)
deriving DecidableEq

/-- The handler `check` (source lines 96-131): the whole body runs inside
`try`, and any exception is caught and returned as an error payload, with the
session state as it was when the exception was raised (no branch mutates
`matches` before raising). -/
def check (v : Vocab) (st : SessionState) (textOpt : Option String) :
    CheckResponse × SessionState :=
  match checkBody v st textOpt with
  | .ok (r, st2) => (.result r, st2)
  | .error e => (.error e, st)

/-- The response dictionary of `check_word` (source lines 160-171):
`valid_word`, `already_found`, and `redirect_url` which is set only when
`len(matches) >= target_count`. -/
structure CheckWordResponse where
  valid_word : Bool
  already_found : Bool
  redirect_url : Option Redirect
deriving DecidableEq

/-- The handler `check_word` (source lines 146-173).  It reads
`request.form["attempt"]` — a missing key raises to the framework (there is no
`try` here), modelled as `.error`.  Otherwise `valid_word = matched and
in_jumble`, `already_found = text in matches`; the candidate is appended iff
`valid_word and not already_found`; `redirect_url` is set to the success page
iff `len(matches) >= target_count` after the update. -/
def check_word (v : Vocab) (st : SessionState) (attemptOpt : Option String) :
    Except String (CheckWordResponse × SessionState) :=
  match attemptOpt with
  | none => .error "BadRequestKeyError"
  | some text =>
    let in_jumble := (LetterBag.ofString st.jumble).contains text
    let matched := v.has text
    let valid_word := matched && in_jumble
    let already_found := st.matchesList.contains text
    let newMatches :=
      if valid_word && !already_found then st.matchesList ++ [text]
      else st.matchesList
    let response : CheckWordResponse :=
      { valid_word := valid_word
        already_found := already_found
        redirect_url :=
          if st.target_count ≤ newMatches.length then some .success
          else none }
    .ok (response, { st with matchesList := newMatches })


/-! ## Helper lemmas -/

/-- The `if`/`elif` chain of `check` classifies every combination of the three
boolean predicates into one of the four real outcomes. -/
theorem classify_ne_unreachable (m i a : Bool) :
    classify m i a ≠ Outcome.UNREACHABLE := by
  cases m <;> cases i <;> cases a <;> decide

/-- The accepting branch of the chain fires exactly when all three predicates
line up: a vocabulary word, spellable, and not yet found. -/
theorem classify_eq_accepted (m i a : Bool) :
    classify m i a = Outcome.ACCEPTED ↔ (m && i && !a) = true := by
  cases m <;> cases i <;> cases a <;> decide

/-- `checkOutcome` is ACCEPTED exactly when the candidate is a vocabulary
word, is spellable from the jumble, and is not already found. -/
theorem checkOutcome_accepted_iff (v : Vocab) (st : SessionState)
    (text : String) :
    checkOutcome v st text = Outcome.ACCEPTED ↔
      (v.has text && (LetterBag.ofString st.jumble).contains text
        && !(st.matchesList.contains text)) = true := by
  unfold checkOutcome
  exact classify_eq_accepted _ _ _

/-- Characterization of `checkBody` on a present candidate: the accepting
branch returns the grown result, and every other branch ends in the `KeyError`
raised when the debug log reads the unset `result["matches"]`. -/
theorem checkBody_eq (v : Vocab) (st : SessionState) (text : String) :
    checkBody v st (some text)
      = (if checkOutcome v st text = Outcome.ACCEPTED then
          Except.ok
            ({ matchesField := some (st.matchesList ++ [text])
               messageField := none
               redirect :=
                 if st.target_count ≤ (st.matchesList ++ [text]).length then
                   Redirect.success
                 else Redirect.keep_going },
             { st with matchesList := st.matchesList ++ [text] })
         else Except.error "\x27matches\x27") := by
  unfold checkBody checkOutcome
  simp only []
  cases ho : classify (v.has text) ((LetterBag.ofString st.jumble).contains text)
      (st.matchesList.contains text) with
  | UNREACHABLE => exact absurd ho (classify_ne_unreachable _ _ _)
  | ACCEPTED => rfl
  | DUPLICATE => rfl
  | NOT_A_WORD => rfl
  | NOT_FROM_JUMBLE => rfl

/-- Characterization of `check_word` on a present candidate. -/
theorem check_word_eq (v : Vocab) (st : SessionState) (text : String) :
    check_word v st (some text)
      = Except.ok
          ({ valid_word :=
               v.has text && (LetterBag.ofString st.jumble).contains text
             already_found := st.matchesList.contains text
             redirect_url :=
               if st.target_count ≤
                   (if v.has text && (LetterBag.ofString st.jumble).contains text
                        && !(st.matchesList.contains text) then
                      st.matchesList ++ [text]
                    else st.matchesList).length then
                 some Redirect.success
               else none },
           { st with
               matchesList :=
                 if v.has text && (LetterBag.ofString st.jumble).contains text
                     && !(st.matchesList.contains text) then
                   st.matchesList ++ [text]
                 else st.matchesList }) := rfl

/-- The match list `check` leaves in the session: grown by the raw candidate
exactly when the candidate is accepted. -/
theorem check_matchesList_eq (v : Vocab) (st : SessionState) (text : String) :
    (check v st (some text)).2.matchesList
      = (if v.has text && (LetterBag.ofString st.jumble).contains text
            && !(st.matchesList.contains text)
         then st.matchesList ++ [text] else st.matchesList) := by
  unfold check
  rw [checkBody_eq]
  by_cases h : checkOutcome v st text = Outcome.ACCEPTED
  · rw [if_pos h, if_pos ((checkOutcome_accepted_iff v st text).mp h)]
  · rw [if_neg h, if_neg fun hb => h ((checkOutcome_accepted_iff v st text).mpr hb)]

/-- Neither branch of `check` writes `target_count`. -/
theorem check_preserves_target_count (v : Vocab) (st : SessionState)
    (t : Option String) : ((check v st t).2).target_count = st.target_count := by
  cases t with
  | none => rfl
  | some text =>
    unfold check
    rw [checkBody_eq]
    by_cases h : checkOutcome v st text = Outcome.ACCEPTED
    · rw [if_pos h]
    · rw [if_neg h]

/-- `check_word` never writes `target_count` either. -/
theorem check_word_preserves_target_count (v : Vocab) (st : SessionState)
    (text : String) (r : CheckWordResponse) (st2 : SessionState)
    (h : check_word v st (some text) = .ok (r, st2)) :
    st2.target_count = st.target_count := by
  rw [check_word_eq] at h
  simp only [Except.ok.injEq, Prod.mk.injEq] at h
  rw [← h.2]

/-! ## Claim theorems -/

/-- C1: the specification says a non-accepted candidate (here: a duplicate)
gets a response whose message identifies the problem, with `matches` and
`target_count` unchanged.  The code computes that message but then
unconditionally logs `result["matches"]`, which only the accepting branch
sets; the resulting `KeyError` is caught by the blanket `except` and the
handler returns an error payload instead.  This theorem evaluates `check` at
the failing input (vocabulary `["cat"]`, session jumble `"tac"`,
`target_count` 2, matches `["cat"]`, candidate `"cat"`): the classification is
DUPLICATE and the duplicate message is computed, but the response is the
`KeyError` error payload; the session is left unchanged. -/
theorem c1_check_nonaccept_returns_error_payload :
    checkOutcome ⟨["cat"]⟩ ⟨"tac", 2, ["cat"]⟩ "cat" = Outcome.DUPLICATE ∧
    checkMessage "cat" "tac" Outcome.DUPLICATE
      = some "You already found cat" ∧
    check ⟨["cat"]⟩ ⟨"tac", 2, ["cat"]⟩ (some "cat")
      = (.error "\x27matches\x27", ⟨"tac", 2, ["cat"]⟩) :=
  ⟨by decide, rfl, rfl⟩

/-- C3: the duplicate check precedes the validity checks: whenever the
candidate is already in `matches`, the classification is DUPLICATE, whatever
the vocabulary-membership and jumble-containment predicates say. -/
theorem c3_duplicate_precedes_validity (v : Vocab) (st : SessionState)
    (text : String) (h : st.matchesList.contains text = true) :
    checkOutcome v st text = Outcome.DUPLICATE := by
  unfold checkOutcome
  rw [h]
  cases v.has text <;> cases (LetterBag.ofString st.jumble).contains text <;>
    decide

/-- C3 witness: the candidate `"cat"` is already found, is not in the
vocabulary `["dog"]`, and cannot be spelled from the jumble `"xyz"`, yet the
classification is DUPLICATE. -/
theorem c3_duplicate_precedes_validity_witness :
    List.contains ["cat"] "cat" = true ∧
    checkOutcome ⟨["dog"]⟩ ⟨"xyz", 1, ["cat"]⟩ "cat" = Outcome.DUPLICATE :=
  ⟨rfl, c3_duplicate_precedes_validity ⟨["dog"]⟩ ⟨"xyz", 1, ["cat"]⟩ "cat" rfl⟩

/-- C6: every combination of the three boolean predicates maps to exactly one
of the four real outcomes, and the `assert False` branch of `check` is
unreachable: `checkBody` never raises the corresponding AssertionError. -/
theorem c6_no_assertion_only_case :
    (∀ m i a : Bool,
      classify m i a = Outcome.ACCEPTED ∨ classify m i a = Outcome.DUPLICATE ∨
      classify m i a = Outcome.NOT_A_WORD ∨
      classify m i a = Outcome.NOT_FROM_JUMBLE) ∧
    (∀ (v : Vocab) (st : SessionState) (t : Option String),
      checkBody v st t ≠ .error "AssertionError") := by
  constructor
  · decide
  · intro v st t
    cases t with
    | none =>
      intro hc
      injection hc with h
      exact absurd h (by decide)
    | some text =>
      rw [checkBody_eq]
      by_cases h : checkOutcome v st text = Outcome.ACCEPTED
      · rw [if_pos h]
        intro hc
        exact Except.noConfusion hc
      · rw [if_neg h]
        intro hc
        injection hc with hs
        exact absurd hs (by decide)

/-- C9: with an empty vocabulary, session start fails with a
ConfigurationError (raised by the jumble generator before the handler's own
`target_count > 0` assertion is reached), producing no session and no other
error. -/
theorem c9_empty_vocab_configuration_error (v : Vocab) (cfg : Config)
    (e : Nat) (h : v.as_list = []) :
    index v cfg e = .error GameError.configurationError := by
  unfold index
  rw [h]
  rfl

/-- C9 witness: session start on the empty vocabulary fails with a
ConfigurationError. -/
theorem c9_empty_vocab_configuration_error_witness :
    Vocab.as_list ⟨[]⟩ = [] ∧
    index ⟨[]⟩ ⟨5, none⟩ 0 = .error GameError.configurationError :=
  ⟨rfl, c9_empty_vocab_configuration_error ⟨[]⟩ ⟨5, none⟩ 0 rfl⟩

/-- C10: `check` and `check_word` update the match list identically: both
append the raw candidate exactly when it is a vocabulary word, is spellable
from the jumble letters, and is not already in `matches`, so from the same
session state and candidate they produce equal `matches` sequences. -/
theorem c10_handlers_agree_on_matches (v : Vocab) (st : SessionState)
    (text : String) :
    (check_word v st (some text)).map (fun p => p.2.matchesList)
      = Except.ok ((check v st (some text)).2.matchesList) ∧
    (check v st (some text)).2.matchesList
      = (if v.has text && (LetterBag.ofString st.jumble).contains text
            && !(st.matchesList.contains text)
         then st.matchesList ++ [text] else st.matchesList) := by
  refine ⟨?_, check_matchesList_eq v st text⟩
  rw [check_word_eq, check_matchesList_eq]
  rfl

/-- An optional success redirect is present exactly when its guard holds. -/
theorem ite_some_success_iff (c : Prop) [Decidable c] :
    ((if c then some Redirect.success else none) = some Redirect.success)
      ↔ c := by
  by_cases h : c
  · simp [h]
  · simp [h]

/-- The two-way redirect is `success` exactly when its guard holds. -/
theorem ite_redirect_success_iff (c : Prop) [Decidable c] :
    ((if c then Redirect.success else Redirect.keep_going) = Redirect.success)
      ↔ c := by
  by_cases h : c
  · rw [if_pos h]
    exact ⟨fun _ => h, fun _ => rfl⟩
  · rw [if_neg h]
    exact ⟨fun hr => absurd hr (by decide), fun hc => absurd hc h⟩

/-- C2 counterexample: `check_word` reads `request.form["attempt"]` outside
any `try`, so a request with the candidate missing raises a missing-form-key
fault to the framework instead of being classified — the claimed totality over
a missing candidate fails for this handler. -/
theorem c2_check_word_missing_candidate_raises :
    check_word ⟨["cat"]⟩ ⟨"tac", 1, []⟩ none = .error "BadRequestKeyError" :=
  rfl

/-- C2 (amended): for every present candidate string — empty or
non-alphabetic included — `check_word` returns a response without raising, and
`check` classifies every present candidate into one of the four outcomes (a
candidate that is not a vocabulary word and not already found is
NOT_A_WORD); a missing candidate in `check` is caught by the blanket `except`
and returned as an error payload with the session unchanged.  Only the
missing-candidate case of `check_word` raises to the framework. -/
theorem c2_check_total_for_strings (v : Vocab) (st : SessionState)
    (text : String) :
    (check_word v st (some text)).isOk = true ∧
    check v st none = (CheckResponse.error "TypeError", st) ∧
    checkOutcome v st text ≠ Outcome.UNREACHABLE ∧
    (v.has text = false → st.matchesList.contains text = false →
      checkOutcome v st text = Outcome.NOT_A_WORD) := by
  refine ⟨?_, rfl, classify_ne_unreachable _ _ _, ?_⟩
  · rw [check_word_eq]
    rfl
  · intro hm hd
    unfold checkOutcome
    rw [hm, hd]
    cases (LetterBag.ofString st.jumble).contains text <;> decide

/-- C2 witness: the non-alphabetic candidate `"xy9!"` is handled without a
fault and classified NOT_A_WORD. -/
theorem c2_check_total_for_strings_witness :
    (check_word ⟨["dog"]⟩ ⟨"tac", 1, []⟩ (some "xy9!")).isOk = true ∧
    checkOutcome ⟨["dog"]⟩ ⟨"tac", 1, []⟩ "xy9!" = Outcome.NOT_A_WORD :=
  ⟨(c2_check_total_for_strings ⟨["dog"]⟩ ⟨"tac", 1, []⟩ "xy9!").1,
   (c2_check_total_for_strings ⟨["dog"]⟩ ⟨"tac", 1, []⟩ "xy9!").2.2.2 rfl rfl⟩

/-- C4 counterexample: the configured seed 0 is a non-negative integer, but
`None if not SEED or SEED < 0 else SEED` maps it to None (Python truthiness:
`not 0` is true), so generation runs unseeded: two session starts with seed 0
and the same vocabulary but different process entropy produce different
jumble strings. -/
theorem c4_seed_zero_not_reproducible :
    effectiveSeed (some 0) = none ∧
    (index ⟨["cat"]⟩ ⟨1, some 0⟩ 0).toOption.map SessionState.jumble
      = some "cat" ∧
    (index ⟨["cat"]⟩ ⟨1, some 0⟩ 1).toOption.map SessionState.jumble
      = some "atc" :=
  ⟨rfl, by decide, by decide⟩

/-- C4 (amended): for every configured seed that is a strictly positive
integer, session start invokes jumble generation with that seed, and two
session starts with the same seed and vocabulary ordering produce identical
results regardless of process entropy; a seed that is absent, zero, or
negative yields unseeded (entropy-driven) generation. -/
theorem c4_positive_seed_deterministic (s : Int) (hs : 0 < s) (v : Vocab)
    (cfg : Config) (hcfg : cfg.SEED = some s) (e1 e2 : Nat) :
    effectiveSeed cfg.SEED = some s ∧ index v cfg e1 = index v cfg e2 := by
  have hes : effectiveSeed cfg.SEED = some s := by
    rw [hcfg]
    show (if s ≤ 0 then none else some s) = some s
    rw [if_neg (by omega)]
  refine ⟨hes, ?_⟩
  unfold index
  rw [hes]
  rfl

/-- C4 witness: with configured seed 1, session starts under different
process entropy coincide. -/
theorem c4_positive_seed_deterministic_witness :
    effectiveSeed (Config.SEED ⟨1, some 1⟩) = some 1 ∧
    index ⟨["cat"]⟩ ⟨1, some 1⟩ 0 = index ⟨["cat"]⟩ ⟨1, some 1⟩ 5 :=
  c4_positive_seed_deterministic 1 (by decide) ⟨["cat"]⟩ ⟨1, some 1⟩ rfl 0 5

/-- C5: whenever session start succeeds, the stored state has
`target_count = min(vocabulary size, configured success threshold)`, an empty
match list, and the generated jumble string; and `target_count` is fixed for
the session: neither check handler ever changes it. -/
theorem c5_index_postcondition (v : Vocab) (cfg : Config) (e : Nat)
    (st : SessionState) (h : index v cfg e = .ok st) :
    st.target_count = min v.as_list.length cfg.SUCCESS_AT_COUNT ∧
    st.matchesList = [] ∧
    jumbled v.as_list st.target_count (effectiveSeed cfg.SEED) e
      = .ok st.jumble ∧
    (∀ t, ((check v st t).2).target_count = st.target_count) ∧
    (∀ text r st2, check_word v st (some text) = .ok (r, st2) →
      st2.target_count = st.target_count) := by
  simp only [index] at h
  cases hj : jumbled v.as_list (min v.as_list.length cfg.SUCCESS_AT_COUNT)
      (effectiveSeed cfg.SEED) e with
  | error ge =>
    rw [hj] at h
    exact absurd h (by simp)
  | ok j =>
    rw [hj] at h
    simp only [] at h
    by_cases htc : min v.as_list.length cfg.SUCCESS_AT_COUNT > 0
    · rw [if_pos htc] at h
      injection h with h
      subst h
      exact ⟨rfl, rfl, hj, fun t => check_preserves_target_count _ _ t,
        fun text r st2 hcw =>
          check_word_preserves_target_count _ _ _ _ _ hcw⟩
    · rw [if_neg htc] at h
      exact absurd h (by simp)

/-- C5 witness: a concrete successful session start and its postcondition. -/
theorem c5_index_postcondition_witness :
    index ⟨["cat"]⟩ ⟨1, none⟩ 0 = .ok ⟨"cat", 1, []⟩ ∧
    (SessionState.target_count ⟨"cat", 1, []⟩
        = min (Vocab.as_list ⟨["cat"]⟩).length 1 ∧
      SessionState.matchesList ⟨"cat", 1, []⟩ = [] ∧
      jumbled (Vocab.as_list ⟨["cat"]⟩)
          (SessionState.target_count ⟨"cat", 1, []⟩) (effectiveSeed none) 0
        = .ok (SessionState.jumble ⟨"cat", 1, []⟩) ∧
      (∀ t, ((check ⟨["cat"]⟩ ⟨"cat", 1, []⟩ t).2).target_count
          = SessionState.target_count ⟨"cat", 1, []⟩) ∧
      (∀ text r st2,
        check_word ⟨["cat"]⟩ ⟨"cat", 1, []⟩ (some text) = .ok (r, st2) →
          st2.target_count = SessionState.target_count ⟨"cat", 1, []⟩)) :=
  ⟨rfl, c5_index_postcondition ⟨["cat"]⟩ ⟨1, none⟩ 0 ⟨"cat", 1, []⟩ rfl⟩

/-- C7 counterexample: an accepted candidate that leaves the session below
the target produces no redirect at all from `check_word` (`redirect_url` is
simply absent), not a keep_going redirect as claimed. -/
theorem c7_check_word_no_keep_going_redirect :
    check_word ⟨["cat", "dog"]⟩ ⟨"tacdog", 2, []⟩ (some "cat")
      = .ok (⟨true, false, none⟩, ⟨"tacdog", 2, ["cat"]⟩) := rfl

/-- C7 (amended): after classification, `check_word` signals the success
redirect if and only if the (updated) match count has reached `target_count`,
and otherwise returns no redirect (the session stays IN_PROGRESS); `check`
returns a result — success redirect iff the match count has reached
`target_count`, keep_going otherwise — only on the accepting path, its
non-accepting paths being preempted by the logging `KeyError`. -/
theorem c7_success_redirect_iff_target_reached (v : Vocab) (st : SessionState)
    (text : String) (r : CheckWordResponse) (st2 : SessionState)
    (h : check_word v st (some text) = .ok (r, st2)) :
    (r.redirect_url = some Redirect.success ↔
      st.target_count ≤ st2.matchesList.length) ∧
    (∀ cr cst, check v st (some text) = (CheckResponse.result cr, cst) →
      (cr.redirect = Redirect.success ↔
        st.target_count ≤ cst.matchesList.length)) := by
  rw [check_word_eq] at h
  simp only [Except.ok.injEq, Prod.mk.injEq] at h
  obtain ⟨hr, hst2⟩ := h
  constructor
  · rw [← hr, ← hst2]
    exact ite_some_success_iff _
  · intro cr cst hc
    unfold check at hc
    rw [checkBody_eq] at hc
    by_cases h2 : checkOutcome v st text = Outcome.ACCEPTED
    · rw [if_pos h2] at hc
      simp only [CheckResponse.result.injEq, Prod.mk.injEq] at hc
      obtain ⟨hcr, hcst⟩ := hc
      rw [← hcr, ← hcst]
      exact ite_redirect_success_iff _
    · rw [if_neg h2] at hc
      simp at hc

/-- C7 witness: an accepted candidate that fills the target yields the
success redirect from `check_word`, and `check` on its accepting path
redirects consistently. -/
theorem c7_success_redirect_iff_target_reached_witness :
    check_word ⟨["cat"]⟩ ⟨"tac", 1, []⟩ (some "cat")
      = .ok (⟨true, false, some Redirect.success⟩, ⟨"tac", 1, ["cat"]⟩) ∧
    ((some Redirect.success = some Redirect.success ↔
        (1 : Nat) ≤ (["cat"] : List String).length) ∧
      (∀ cr cst,
        check ⟨["cat"]⟩ ⟨"tac", 1, []⟩ (some "cat")
            = (CheckResponse.result cr, cst) →
          (cr.redirect = Redirect.success ↔
            (1 : Nat) ≤ cst.matchesList.length))) :=
  ⟨rfl, c7_success_redirect_iff_target_reached ⟨["cat"]⟩ ⟨"tac", 1, []⟩ "cat"
    ⟨true, false, some Redirect.success⟩ ⟨"tac", 1, ["cat"]⟩ rfl⟩

/-- C8 counterexample: the handlers never lowercase the candidate themselves;
only the (spec-modelled) membership and containment predicates normalize
internally, while the duplicate check `text in matches` compares raw strings.
With `"cat"` already found, the claim says `"Cat"` behaves like its lowercase
form (DUPLICATE, matches unchanged); the code classifies `"Cat"` as ACCEPTED
and appends it next to `"cat"`. -/
theorem c8_case_sensitive_duplicate_check :
    checkOutcome ⟨["cat"]⟩ ⟨"tac", 2, ["cat"]⟩ "cat" = Outcome.DUPLICATE ∧
    checkOutcome ⟨["cat"]⟩ ⟨"tac", 2, ["cat"]⟩ "Cat" = Outcome.ACCEPTED ∧
    (check ⟨["cat"]⟩ ⟨"tac", 2, ["cat"]⟩ (some "Cat")).2.matchesList
      = ["cat", "Cat"] :=
  ⟨by decide, by decide, by decide⟩

/-- C8 (amended): the vocabulary-membership and jumble-containment checks are
case-insensitive because `Vocab.has` and `LetterBag.contains` lowercase
internally, but the candidate itself is never normalized in the handler: the
duplicate check compares the raw candidate against `matches` case-sensitively,
and an accepted candidate is appended raw — so a candidate differing only in
case from a found word is treated as new. -/
theorem c8_raw_candidate_duplicate_check (v : Vocab) (st : SessionState)
    (text : String) (hm : v.has text = true)
    (hj : (LetterBag.ofString st.jumble).contains text = true)
    (hd : st.matchesList.contains text = false) :
    v.has text = v.words.contains (strLower text) ∧
    checkOutcome v st text = Outcome.ACCEPTED ∧
    (check v st (some text)).2.matchesList = st.matchesList ++ [text] := by
  refine ⟨rfl, ?_, ?_⟩
  · exact (checkOutcome_accepted_iff v st text).mpr (by rw [hm, hj, hd]; rfl)
  · rw [check_matchesList_eq, hm, hj, hd]
    rfl

/-- C8 witness: with `"cat"` found and jumble `"tac"`, the candidate `"Cat"`
passes membership and containment (case-normalized), fails the raw duplicate
check, and is appended raw. -/
theorem c8_raw_candidate_duplicate_check_witness :
    Vocab.has ⟨["cat"]⟩ "Cat" = true ∧
    (LetterBag.ofString "tac").contains "Cat" = true ∧
    List.contains ["cat"] "Cat" = false ∧
    (Vocab.has ⟨["cat"]⟩ "Cat"
        = List.contains (["cat"] : List String) (strLower "Cat") ∧
      checkOutcome ⟨["cat"]⟩ ⟨"tac", 2, ["cat"]⟩ "Cat" = Outcome.ACCEPTED ∧
      (check ⟨["cat"]⟩ ⟨"tac", 2, ["cat"]⟩ (some "Cat")).2.matchesList
        = ["cat"] ++ ["Cat"]) :=
  ⟨rfl, rfl, rfl,
   c8_raw_candidate_duplicate_check ⟨["cat"]⟩ ⟨"tac", 2, ["cat"]⟩ "Cat"
     rfl rfl rfl⟩
